import Mathlib

/-!
Shallow embedding of the namespaced-Merkle-tree proof module
(`merkle_tree/src/namespaced_merkle_tree/proof.rs`) of the Jellyfish
library, together with theorems settling the specification claims about
`NaiveNamespaceProof::verify` and its helpers.

Modelling conventions:
* `u64` values are `Nat`s; arithmetic the source performs on `u64`
  (`first_index - 1`, `first_index + idx`, `left_index + 1`,
  `first_index + proofs.len()`) is taken modulo `2 ^ 64`, the wrapping
  semantics of release-profile Rust.
* Rust `Result<VerificationResult, MerkleTreeError>` becomes
  `Except MerkleTreeError VerificationResult`, with
  `VerificationResult = Result<(), ()>` rendered as a two-value inductive.
* The generic inner tree's path verifier (`InnerTree::verify`) and the
  namespace accessor of elements (`Namespaced::get_namespace`) are external
  collaborators; they are passed in as parameters `innerVerify` and `getNs`.
* A Rust panic (the `unwrap` in `get_namespace_leaves`) is modelled by the
  `none` outcome of an `Option`-valued embedding.
-/

/-- Modulus of Rust `u64` arithmetic: values are below it and wrapping
operations reduce modulo it. -/
def u64Size : Nat := 2 ^ 64

/-- `VerificationResult = Result<(), ()>`: `valid` is `Ok(())` (a passed
check), `invalid` is `Err(())` (a failed check). -/
inductive VerificationResult where
  | valid : VerificationResult
  | invalid : VerificationResult
deriving Repr, DecidableEq

/-- The merkle-tree crate's error channel, restricted to the only variant
this module constructs: `MerkleTreeError::InconsistentStructureError(String)`. -/
inductive MerkleTreeError where
  | inconsistentStructureError : String → MerkleTreeError
deriving Repr, DecidableEq

/-- `MerkleProof<E, u64, NamespacedHash<T, N>, ARITY>`, restricted to the
two fields this module reads: the leaf `index` (a `u64`, kept as `Nat`) and
the optional embedded leaf `elem`. The sibling digests are never inspected
here; recomputing the path is the job of the external path verifier. -/
structure MerkleProof (E : Type) where
  index : Nat
  elem : Option E
deriving Repr, DecidableEq

/-- `NamespacedHash<T, N>`: a node digest together with the minimum and
maximum namespace of the node's subtree. -/
structure NamespacedHash (T N : Type) where
  digest : T
  min_namespace : N
  max_namespace : N
deriving Repr, DecidableEq

/-- `NamespaceProofType`: discriminant between a populated namespace
(presence) and an empty one (absence). -/
inductive NamespaceProofType where
  | Presence : NamespaceProofType
  | Absence : NamespaceProofType
deriving Repr, DecidableEq

/-- `NaiveNamespaceProof<E, T, ARITY, N, H>` (the `PhantomData` marker is
dropped): the discriminant, the ordered per-leaf path proofs, the two
optional boundary path proofs, and the starting leaf index. -/
structure NaiveNamespaceProof (E : Type) where
  proof_type : NamespaceProofType
  proofs : List (MerkleProof E)
  left_boundary_proof : Option (MerkleProof E)
  right_boundary_proof : Option (MerkleProof E)
  first_index : Nat
deriving Repr, DecidableEq

/-- `get_namespace_leaves`: for `Presence` every embedded leaf of `proofs`
in order, for `Absence` none.  The Rust pipeline
`iter().map(|p| p.elem().unwrap()).take(num_leaves).collect()` is lazy, so
`unwrap` is forced only on the first `num_leaves` entries; the embedding
therefore takes first and then extracts.  The `none` outcome models the
`unwrap` panic on an entry with no embedded element. -/
def get_namespace_leaves {E : Type} (self : NaiveNamespaceProof E) :
    Option (List E) :=
  let num_leaves :=
    match self.proof_type with
    | NamespaceProofType.Presence => self.proofs.length
    | NamespaceProofType.Absence => 0
  (self.proofs.take num_leaves).mapM (fun proof => proof.elem)

section Verifier

variable {E T N : Type} [LinearOrder N]
variable (getNs : E → N)
variable (innerVerify :
    NamespacedHash T N → Nat → MerkleProof E →
      Except MerkleTreeError VerificationResult)

/-- `verify_left_namespace_boundary`: when a left boundary proof is present,
its element must exist (else a structural error), have namespace strictly
below the target and sit at index `first_index - 1` (wrapping `u64`
subtraction), and its path must verify; when absent, the target must be the
tree's minimum namespace. -/
def verify_left_namespace_boundary (self : NaiveNamespaceProof E)
    (root : NamespacedHash T N) (ns : N) :
    Except MerkleTreeError VerificationResult :=
  match self.left_boundary_proof with
  | some boundary_proof =>
    match boundary_proof.elem with
    | none =>
      Except.error (MerkleTreeError.inconsistentStructureError
        ("Boundary proof does not contain an element"))
    | some e =>
      if getNs e ≥ ns ∨
          boundary_proof.index ≠ (self.first_index + (u64Size - 1)) % u64Size
      then Except.ok VerificationResult.invalid
      else
        match innerVerify root boundary_proof.index boundary_proof with
        | Except.error err => Except.error err
        | Except.ok VerificationResult.invalid =>
          Except.ok VerificationResult.invalid
        | Except.ok VerificationResult.valid =>
          Except.ok VerificationResult.valid
  | none =>
    if root.min_namespace ≠ ns then Except.ok VerificationResult.invalid
    else Except.ok VerificationResult.valid

/-- `verify_right_namespace_boundary`: mirror image of the left check with
namespace strictly above the target, expected index
`first_index + proofs.len()` (wrapping `u64` addition), and the tree's
maximum namespace in the absent case. -/
def verify_right_namespace_boundary (self : NaiveNamespaceProof E)
    (root : NamespacedHash T N) (ns : N) :
    Except MerkleTreeError VerificationResult :=
  match self.right_boundary_proof with
  | some boundary_proof =>
    match boundary_proof.elem with
    | none =>
      Except.error (MerkleTreeError.inconsistentStructureError
        ("Boundary proof does not contain an element"))
    | some e =>
      if getNs e ≤ ns ∨
          boundary_proof.index ≠
            (self.first_index + self.proofs.length) % u64Size
      then Except.ok VerificationResult.invalid
      else
        match innerVerify root boundary_proof.index boundary_proof with
        | Except.error err => Except.error err
        | Except.ok VerificationResult.invalid =>
          Except.ok VerificationResult.invalid
        | Except.ok VerificationResult.valid =>
          Except.ok VerificationResult.valid
  | none =>
    if root.max_namespace ≠ ns then Except.ok VerificationResult.invalid
    else Except.ok VerificationResult.valid

/-- `verify_absence_proof`: trivially valid when the target lies outside the
root's namespace span; otherwise both boundary proofs and their elements are
mandatory (structural errors when missing), the two boundary leaves must be
adjacent and bracket the target strictly, and both paths must verify. -/
def verify_absence_proof (self : NaiveNamespaceProof E)
    (root : NamespacedHash T N) (ns : N) :
    Except MerkleTreeError VerificationResult :=
  if ns < root.min_namespace ∨ ns > root.max_namespace then
    Except.ok VerificationResult.valid
  else
    match self.left_boundary_proof with
    | none =>
      Except.error (MerkleTreeError.inconsistentStructureError
        ("Left Boundary proof must be present"))
    | some left_proof =>
      match self.right_boundary_proof with
      | none =>
        Except.error (MerkleTreeError.inconsistentStructureError
          ("Right boundary proof must be present"))
      | some right_proof =>
        match left_proof.elem with
        | none =>
          Except.error (MerkleTreeError.inconsistentStructureError
            ("The left boundary proof is missing an element"))
        | some left_elem =>
          match right_proof.elem with
          | none =>
            Except.error (MerkleTreeError.inconsistentStructureError
              ("The left boundary proof is missing an element"))
          | some right_elem =>
            if right_proof.index ≠ (left_proof.index + 1) % u64Size then
              Except.ok VerificationResult.invalid
            else if ns ≤ getNs left_elem ∨ ns ≥ getNs right_elem then
              Except.ok VerificationResult.invalid
            else
              match innerVerify root left_proof.index left_proof with
              | Except.error e => Except.error e
              | Except.ok VerificationResult.invalid =>
                Except.ok VerificationResult.invalid
              | Except.ok VerificationResult.valid =>
                match innerVerify root right_proof.index right_proof with
                | Except.error e => Except.error e
                | Except.ok VerificationResult.invalid =>
                  Except.ok VerificationResult.invalid
                | Except.ok VerificationResult.valid =>
                  Except.ok VerificationResult.valid

/-- Outcome of the per-leaf loop of `verify_presence_proof`: either an early
`return Ok(Err(()))`, or fall-through to the boundary checks carrying the
final value of the `last_idx` mutable. -/
inductive LoopResult where
  | exitInvalid : LoopResult
  | completed : Option Nat → LoopResult
deriving Repr, DecidableEq

/-- The `for (idx, proof) in self.proofs.iter().enumerate()` loop of
`verify_presence_proof`, with the running enumeration counter `idx` and the
`last_idx` mutable made explicit. -/
def presence_loop (root : NamespacedHash T N) (ns : N) (first_index : Nat) :
    List (MerkleProof E) → Nat → Option Nat →
      Except MerkleTreeError LoopResult
  | [], _, last_idx => Except.ok (LoopResult.completed last_idx)
  | proof :: rest, idx, last_idx =>
    let leaf_index := (first_index + idx) % u64Size
    match innerVerify root leaf_index proof with
    | Except.error e => Except.error e
    | Except.ok VerificationResult.invalid => Except.ok LoopResult.exitInvalid
    | Except.ok VerificationResult.valid =>
      match proof.elem with
      | none =>
        Except.error (MerkleTreeError.inconsistentStructureError
          ("Missing namespace element"))
      | some e =>
        if getNs e ≠ ns then Except.ok LoopResult.exitInvalid
        else
          match last_idx with
          | some prev_index =>
            if leaf_index ≠ (prev_index + 1) % u64Size then
              Except.ok LoopResult.exitInvalid
            else
              presence_loop root ns first_index rest (idx + 1)
                (some leaf_index)
          | none => presence_loop root ns first_index rest (idx + 1) none

/-- `verify_presence_proof`: run the per-leaf loop, then the two boundary
checks.  The source tests the boundary checks with `.is_err()`, which looks
only at the outer `Result` layer: a structural error makes it return
`Ok(Err(()))`, while an inner `Ok(Err(()))` as well as `Ok(Ok(()))` fall
through. -/
def verify_presence_proof (self : NaiveNamespaceProof E)
    (root : NamespacedHash T N) (ns : N) :
    Except MerkleTreeError VerificationResult :=
  match presence_loop getNs innerVerify root ns self.first_index
      self.proofs 0 none with
  | Except.error e => Except.error e
  | Except.ok LoopResult.exitInvalid => Except.ok VerificationResult.invalid
  | Except.ok (LoopResult.completed _) =>
    match verify_left_namespace_boundary getNs innerVerify self root ns with
    | Except.error _ => Except.ok VerificationResult.invalid
    | Except.ok _ =>
      match verify_right_namespace_boundary getNs innerVerify self root ns with
      | Except.error _ => Except.ok VerificationResult.invalid
      | Except.ok _ => Except.ok VerificationResult.valid

/-- `NamespaceProof::verify`: dispatch on the discriminant. -/
def verify (self : NaiveNamespaceProof E) (root : NamespacedHash T N)
    (ns : N) : Except MerkleTreeError VerificationResult :=
  match self.proof_type with
  | NamespaceProofType.Presence =>
    verify_presence_proof getNs innerVerify self root ns
  | NamespaceProofType.Absence =>
    verify_absence_proof getNs innerVerify self root ns

/-- The per-leaf loop with the index-contiguity machinery (the `last_idx`
mutable, its guard and the gap test) deleted; used to show that machinery
is inert in the source. -/
def presence_loop_nogap (root : NamespacedHash T N) (ns : N)
    (first_index : Nat) :
    List (MerkleProof E) → Nat → Except MerkleTreeError LoopResult
  | [], _ => Except.ok (LoopResult.completed none)
  | proof :: rest, idx =>
    let leaf_index := (first_index + idx) % u64Size
    match innerVerify root leaf_index proof with
    | Except.error e => Except.error e
    | Except.ok VerificationResult.invalid => Except.ok LoopResult.exitInvalid
    | Except.ok VerificationResult.valid =>
      match proof.elem with
      | none =>
        Except.error (MerkleTreeError.inconsistentStructureError
          ("Missing namespace element"))
      | some e =>
        if getNs e ≠ ns then Except.ok LoopResult.exitInvalid
        else presence_loop_nogap root ns first_index rest (idx + 1)

/-- `verify_presence_proof` rebuilt on the contiguity-free loop. -/
def verify_presence_proof_nogap (self : NaiveNamespaceProof E)
    (root : NamespacedHash T N) (ns : N) :
    Except MerkleTreeError VerificationResult :=
  match presence_loop_nogap getNs innerVerify root ns self.first_index
      self.proofs 0 with
  | Except.error e => Except.error e
  | Except.ok LoopResult.exitInvalid => Except.ok VerificationResult.invalid
  | Except.ok (LoopResult.completed _) =>
    match verify_left_namespace_boundary getNs innerVerify self root ns with
    | Except.error _ => Except.ok VerificationResult.invalid
    | Except.ok _ =>
      match verify_right_namespace_boundary getNs innerVerify self root ns with
      | Except.error _ => Except.ok VerificationResult.invalid
      | Except.ok _ => Except.ok VerificationResult.valid

/-- A per-leaf entry of a presence proof passes its two loop checks: the
path verifies at the given leaf index and the embedded element exists and
carries the target namespace. -/
def entry_passes (root : NamespacedHash T N) (ns : N) (leaf_index : Nat)
    (proof : MerkleProof E) : Prop :=
  innerVerify root leaf_index proof = Except.ok VerificationResult.valid ∧
  ∃ e, proof.elem = some e ∧ getNs e = ns

end Verifier

/-- A path verifier that accepts every path; used to evaluate the verifier
on concrete inputs where the cryptographic layer is irrelevant. -/
def acceptAll : NamespacedHash Unit Nat → Nat → MerkleProof Nat →
    Except MerkleTreeError VerificationResult :=
  fun _ _ _ => Except.ok VerificationResult.valid

/-- Concrete root with namespace span `[5, 5]`. -/
def rootC1 : NamespacedHash Unit Nat := ⟨(), 5, 5⟩

/-- Presence proof with no per-leaf proofs and no boundary proofs. -/
def pfC1a : NaiveNamespaceProof Nat :=
  ⟨NamespaceProofType.Presence, [], none, none, 0⟩

/-- Presence proof whose left boundary proof lacks its embedded element. -/
def pfC1b : NaiveNamespaceProof Nat :=
  ⟨NamespaceProofType.Presence, [], some ⟨0, none⟩, none, 1⟩

/-- Presence proof whose single per-leaf path proof lacks its element. -/
def pfC3 : NaiveNamespaceProof Nat :=
  ⟨NamespaceProofType.Presence, [⟨0, none⟩], none, none, 0⟩

/-- Concrete root with namespace span `[1, 5]`. -/
def rootC4 : NamespacedHash Unit Nat := ⟨(), 1, 5⟩

/-- Presence proof with `first_index = 0` that nevertheless supplies a left
boundary proof, placed at the index `2 ^ 64 - 1` produced by wrapping
`u64` subtraction `0 - 1`. -/
def pfC4 : NaiveNamespaceProof Nat :=
  ⟨NamespaceProofType.Presence, [], some ⟨u64Size - 1, some 1⟩, none, 0⟩

lemma presence_loop_none_eq_nogap {E T N : Type} [LinearOrder N]
    (getNs : E → N)
    (innerVerify : NamespacedHash T N → Nat → MerkleProof E →
      Except MerkleTreeError VerificationResult)
    (root : NamespacedHash T N) (ns : N) (first_index : Nat)
    (proofs : List (MerkleProof E)) (idx : Nat) :
    presence_loop getNs innerVerify root ns first_index proofs idx none =
      presence_loop_nogap getNs innerVerify root ns first_index proofs idx := by
  induction proofs generalizing idx with
  | nil => rfl
  | cons p rest ih =>
    simp only [presence_loop, presence_loop_nogap]
    cases innerVerify root ((first_index + idx) % u64Size) p with
    | error e => rfl
    | ok r =>
      cases r with
      | invalid => rfl
      | valid =>
        cases hel : p.elem with
        | none => rfl
        | some e =>
          by_cases h : getNs e = ns
          · simp [h, ih]
          · simp [h]

/-- Claim C1: refuted at concrete inputs — the boundary sub-checks'
outcomes do not propagate as the claim states.  With no boundary proofs
and a target namespace different from the root's span,
`verify_left_namespace_boundary` yields the `Invalid` outcome yet `verify`
returns `Valid`; and when the left boundary proof lacks its element the
sub-check yields a structural error yet `verify` returns `Invalid` instead
of that error. -/
theorem c1_boundary_outcome_not_propagated :
    verify_left_namespace_boundary (fun e => e) acceptAll pfC1a rootC1 7 =
      Except.ok VerificationResult.invalid ∧
    verify (fun e => e) acceptAll pfC1a rootC1 7 =
      Except.ok VerificationResult.valid ∧
    verify_left_namespace_boundary (fun e => e) acceptAll pfC1b rootC1 7 =
      Except.error (MerkleTreeError.inconsistentStructureError
        ("Boundary proof does not contain an element")) ∧
    verify (fun e => e) acceptAll pfC1b rootC1 7 =
      Except.ok VerificationResult.invalid := by
  refine ⟨rfl, rfl, rfl, rfl⟩

/-- Claim C2: the index-contiguity machinery of `verify_presence_proof` is
inert — deleting the `last_idx` mutable, its guard and the gap test leaves
the per-leaf loop and the whole presence verification extensionally
unchanged, so the branch returning `Invalid` on an index gap is
unreachable. -/
theorem c2_contiguity_check_never_enforced {E T N : Type} [LinearOrder N]
    (getNs : E → N)
    (innerVerify : NamespacedHash T N → Nat → MerkleProof E →
      Except MerkleTreeError VerificationResult)
    (self : NaiveNamespaceProof E) (root : NamespacedHash T N) (ns : N) :
    presence_loop getNs innerVerify root ns self.first_index
        self.proofs 0 none =
      presence_loop_nogap getNs innerVerify root ns self.first_index
        self.proofs 0 ∧
    verify_presence_proof getNs innerVerify self root ns =
      verify_presence_proof_nogap getNs innerVerify self root ns := by
  refine ⟨presence_loop_none_eq_nogap getNs innerVerify root ns
    self.first_index self.proofs 0, ?_⟩
  unfold verify_presence_proof verify_presence_proof_nogap
  rw [presence_loop_none_eq_nogap]

lemma presence_loop_nogap_first_failure {E T N : Type} [LinearOrder N]
    (getNs : E → N)
    (innerVerify : NamespacedHash T N → Nat → MerkleProof E →
      Except MerkleTreeError VerificationResult)
    (root : NamespacedHash T N) (ns : N) (first_index : Nat)
    (pre : List (MerkleProof E)) (p : MerkleProof E)
    (rest : List (MerkleProof E)) (idx0 : Nat)
    (hpre : ∀ j (hj : j < pre.length),
      entry_passes getNs innerVerify root ns
        ((first_index + (idx0 + j)) % u64Size) (pre.get ⟨j, hj⟩))
    (hp : innerVerify root ((first_index + (idx0 + pre.length)) % u64Size) p =
        Except.ok VerificationResult.invalid ∨
      (innerVerify root ((first_index + (idx0 + pre.length)) % u64Size) p =
        Except.ok VerificationResult.valid ∧
       ∃ e, p.elem = some e ∧ getNs e ≠ ns)) :
    presence_loop_nogap getNs innerVerify root ns first_index
      (pre ++ p :: rest) idx0 = Except.ok LoopResult.exitInvalid := by
  induction pre generalizing idx0 with
  | nil =>
    simp only [List.length_nil, Nat.add_zero] at hp
    simp only [List.nil_append, presence_loop_nogap]
    rcases hp with h | ⟨h, e, hel, hne⟩
    · simp [h]
    · simp [h, hel, hne]
  | cons q qre ih =>
    have hq := hpre 0 (by simp)
    simp only [entry_passes, Nat.add_zero, List.get] at hq
    obtain ⟨hqv, e, hqel, hqns⟩ := hq
    simp only [List.cons_append, presence_loop_nogap]
    rw [hqv]
    simp only [hqel, hqns, ne_eq, not_true_eq_false, if_false, ite_false]
    have hpre' : ∀ j (hj : j < qre.length),
        entry_passes getNs innerVerify root ns
          ((first_index + ((idx0 + 1) + j)) % u64Size) (qre.get ⟨j, hj⟩) := by
      intro j hj
      have hj' : j + 1 < (q :: qre).length := by
        simp only [List.length_cons]
        omega
      have := hpre (j + 1) hj'
      have harith : idx0 + (j + 1) = (idx0 + 1) + j := by omega
      rw [harith] at this
      simpa using this
    have hp' : innerVerify root
        ((first_index + ((idx0 + 1) + qre.length)) % u64Size) p =
          Except.ok VerificationResult.invalid ∨
        (innerVerify root
          ((first_index + ((idx0 + 1) + qre.length)) % u64Size) p =
            Except.ok VerificationResult.valid ∧
         ∃ e, p.elem = some e ∧ getNs e ≠ ns) := by
      have harith : idx0 + (q :: qre).length = (idx0 + 1) + qre.length := by
        simp only [List.length_cons]
        omega
      rw [harith] at hp
      exact hp
    exact ih (idx0 + 1) hpre' hp'

/-- Claim C5: in a presence proof, when every entry before position `i`
passes both per-leaf checks and the entry at `i` either fails path
verification at leaf index `first_index + i` or carries an element whose
namespace differs from the target, `verify` returns the `Invalid` outcome. -/
theorem c5_per_leaf_checks_force_invalid {E T N : Type} [LinearOrder N]
    (getNs : E → N)
    (innerVerify : NamespacedHash T N → Nat → MerkleProof E →
      Except MerkleTreeError VerificationResult)
    (self : NaiveNamespaceProof E) (root : NamespacedHash T N) (ns : N)
    (pre : List (MerkleProof E)) (p : MerkleProof E)
    (rest : List (MerkleProof E))
    (hpt : self.proof_type = NamespaceProofType.Presence)
    (hsplit : self.proofs = pre ++ p :: rest)
    (hpre : ∀ j (hj : j < pre.length),
      entry_passes getNs innerVerify root ns
        ((self.first_index + j) % u64Size) (pre.get ⟨j, hj⟩))
    (hp : innerVerify root ((self.first_index + pre.length) % u64Size) p =
        Except.ok VerificationResult.invalid ∨
      (innerVerify root ((self.first_index + pre.length) % u64Size) p =
        Except.ok VerificationResult.valid ∧
       ∃ e, p.elem = some e ∧ getNs e ≠ ns)) :
    verify getNs innerVerify self root ns =
      Except.ok VerificationResult.invalid := by
  have hcore := presence_loop_nogap_first_failure getNs innerVerify root ns
    self.first_index pre p rest 0
    (fun j hj => by simpa using hpre j hj)
    (by simpa using hp)
  simp only [verify, hpt, verify_presence_proof,
    presence_loop_none_eq_nogap, hsplit, hcore]

/-- Witness for C5: a presence proof whose first entry passes and whose
second entry carries namespace `6` against target `5` verifies `Invalid`. -/
theorem c5_witness :
    verify (fun e => e) acceptAll
      (⟨NamespaceProofType.Presence, [⟨0, some 5⟩, ⟨0, some 6⟩],
        none, none, 0⟩ : NaiveNamespaceProof Nat)
      (⟨(), 5, 5⟩ : NamespacedHash Unit Nat) 5 =
      Except.ok VerificationResult.invalid :=
  c5_per_leaf_checks_force_invalid (fun e => e) acceptAll _ _ 5
    [⟨0, some 5⟩] ⟨0, some 6⟩ [] rfl rfl
    (by
      intro j hj
      have hj0 : j = 0 := by
        simp only [List.length_cons, List.length_nil] at hj
        omega
      subst hj0
      simp only [entry_passes]
      exact ⟨rfl, 5, rfl, rfl⟩)
    (Or.inr ⟨rfl, 6, rfl, by decide⟩)

/-- Claim C3: refuted at a concrete input — on a presence proof whose
single entry lacks its embedded element, `get_namespace_leaves` reaches the
`unwrap` panic (modelled by `none`) rather than reporting a structural
error. -/
theorem c3_missing_element_reaches_panic :
    get_namespace_leaves pfC3 = none := by
  rfl

/-- Claim C4: refuted at a concrete input — with `first_index = 0` and a
left boundary proof supplied, `verify_left_namespace_boundary` computes the
expected boundary index by wrapping `u64` arithmetic (`0 - 1 = 2 ^ 64 - 1`),
accepts a boundary proof sitting at that wrapped index, and `verify`
returns `Valid`; no structural error is reported. -/
theorem c4_underflow_wraps_instead_of_error :
    verify_left_namespace_boundary (fun e => e) acceptAll pfC4 rootC4 5 =
      Except.ok VerificationResult.valid ∧
    verify (fun e => e) acceptAll pfC4 rootC4 5 =
      Except.ok VerificationResult.valid := by
  refine ⟨rfl, rfl⟩

/-- Claim C6: for an absence proof with the target inside the root's
namespace span and both boundary proofs present with their elements,
`verify` returns `Invalid` unless the right boundary index is the left
boundary index plus one (wrapping `u64` addition) and the target lies
strictly between the two boundary namespaces. -/
theorem c6_absence_requires_adjacent_bracketing {E T N : Type}
    [LinearOrder N] (getNs : E → N)
    (innerVerify : NamespacedHash T N → Nat → MerkleProof E →
      Except MerkleTreeError VerificationResult)
    (self : NaiveNamespaceProof E) (root : NamespacedHash T N) (ns : N)
    (lp rp : MerkleProof E) (lelem relem : E)
    (hpt : self.proof_type = NamespaceProofType.Absence)
    (hmin : root.min_namespace ≤ ns) (hmax : ns ≤ root.max_namespace)
    (hl : self.left_boundary_proof = some lp)
    (hr : self.right_boundary_proof = some rp)
    (hle : lp.elem = some lelem) (hre : rp.elem = some relem)
    (hbad : ¬(rp.index = (lp.index + 1) % u64Size ∧
      getNs lelem < ns ∧ ns < getNs relem)) :
    verify getNs innerVerify self root ns =
      Except.ok VerificationResult.invalid := by
  have hin : ¬(ns < root.min_namespace ∨ ns > root.max_namespace) := by
    rintro (h | h)
    · exact absurd hmin (not_le.2 h)
    · exact absurd hmax (not_le.2 h)
  simp only [verify, hpt, verify_absence_proof, hl, hr, hle, hre, if_neg hin]
  by_cases hadj : rp.index = (lp.index + 1) % u64Size
  · have hbc : ¬(getNs lelem < ns ∧ ns < getNs relem) :=
      fun h => hbad ⟨hadj, h⟩
    have hbet : ns ≤ getNs lelem ∨ ns ≥ getNs relem := by
      rcases not_and_or.1 hbc with h | h
      · exact Or.inl (not_lt.1 h)
      · exact Or.inr (not_lt.1 h)
    rw [if_neg (not_not_intro hadj), if_pos hbet]
  · rw [if_pos hadj]

/-- Witness for C6: boundary leaves at non-adjacent indices `3` and `7`
bracketing target `5` make the absence proof verify `Invalid`. -/
theorem c6_witness :
    verify (fun e => e) acceptAll
      (⟨NamespaceProofType.Absence, [], some ⟨3, some 2⟩, some ⟨7, some 9⟩,
        0⟩ : NaiveNamespaceProof Nat)
      (⟨(), 1, 9⟩ : NamespacedHash Unit Nat) 5 =
      Except.ok VerificationResult.invalid :=
  c6_absence_requires_adjacent_bracketing (fun e => e) acceptAll _ _ 5
    ⟨3, some 2⟩ ⟨7, some 9⟩ 2 9 rfl (by decide) (by decide) rfl rfl rfl rfl
    (by
      intro h
      have := h.1
      simp only [u64Size] at this
      omega)

/-- Claim C7: for an absence proof whose target is strictly outside the
root's namespace span, `verify` returns `Valid` immediately, whatever the
boundary-proof fields hold. -/
theorem c7_absence_trivial_outside_range {E T N : Type} [LinearOrder N]
    (getNs : E → N)
    (innerVerify : NamespacedHash T N → Nat → MerkleProof E →
      Except MerkleTreeError VerificationResult)
    (self : NaiveNamespaceProof E) (root : NamespacedHash T N) (ns : N)
    (hpt : self.proof_type = NamespaceProofType.Absence)
    (hout : ns < root.min_namespace ∨ ns > root.max_namespace) :
    verify getNs innerVerify self root ns =
      Except.ok VerificationResult.valid := by
  simp only [verify, hpt, verify_absence_proof, if_pos hout]

/-- Witness for C7: target `0` below the span `[1, 9]` verifies `Valid`
even though the proof carries no boundary proofs. -/
theorem c7_witness :
    verify (fun e => e) acceptAll
      (⟨NamespaceProofType.Absence, [], none, none, 0⟩ :
        NaiveNamespaceProof Nat)
      (⟨(), 1, 9⟩ : NamespacedHash Unit Nat) 0 =
      Except.ok VerificationResult.valid :=
  c7_absence_trivial_outside_range (fun e => e) acceptAll _ _ 0 rfl
    (Or.inl (by decide))

/-- Claim C8: for an absence proof whose target is inside the root's
namespace span, a missing boundary proof or a present boundary proof
without its element makes `verify` return a structural
`InconsistentStructureError`, not the `Invalid` outcome. -/
theorem c8_absence_malformed_boundaries_error {E T N : Type}
    [LinearOrder N] (getNs : E → N)
    (innerVerify : NamespacedHash T N → Nat → MerkleProof E →
      Except MerkleTreeError VerificationResult)
    (self : NaiveNamespaceProof E) (root : NamespacedHash T N) (ns : N)
    (hpt : self.proof_type = NamespaceProofType.Absence)
    (hmin : root.min_namespace ≤ ns) (hmax : ns ≤ root.max_namespace)
    (hmal : self.left_boundary_proof = none ∨
      self.right_boundary_proof = none ∨
      (∃ lp, self.left_boundary_proof = some lp ∧ lp.elem = none) ∨
      (∃ rp, self.right_boundary_proof = some rp ∧ rp.elem = none)) :
    ∃ msg, verify getNs innerVerify self root ns =
      Except.error (MerkleTreeError.inconsistentStructureError msg) := by
  have hin : ¬(ns < root.min_namespace ∨ ns > root.max_namespace) := by
    rintro (h | h)
    · exact absurd hmin (not_le.2 h)
    · exact absurd hmax (not_le.2 h)
  simp only [verify, hpt, verify_absence_proof, if_neg hin]
  rcases hmal with h | h | ⟨lp, hl, hle⟩ | ⟨rp, hr, hre⟩
  · simp only [h]
    exact ⟨_, rfl⟩
  · cases hl : self.left_boundary_proof with
    | none =>
      simp only [hl]
      exact ⟨_, rfl⟩
    | some lp =>
      simp only [hl, h]
      exact ⟨_, rfl⟩
  · simp only [hl]
    cases hr : self.right_boundary_proof with
    | none => exact ⟨_, rfl⟩
    | some rp =>
      simp only [hle]
      exact ⟨_, rfl⟩
  · cases hl : self.left_boundary_proof with
    | none => exact ⟨_, rfl⟩
    | some lp =>
      cases hle : lp.elem with
      | none =>
        simp only [hr, hle]
        exact ⟨_, rfl⟩
      | some lelem =>
        simp only [hr, hle, hre]
        exact ⟨_, rfl⟩

/-- Witness for C8: target `5` inside span `[1, 9]` with both boundary
proofs missing yields a structural error. -/
theorem c8_witness :
    ∃ msg, verify (fun e => e) acceptAll
      (⟨NamespaceProofType.Absence, [], none, none, 0⟩ :
        NaiveNamespaceProof Nat)
      (⟨(), 1, 9⟩ : NamespacedHash Unit Nat) 5 =
      Except.error (MerkleTreeError.inconsistentStructureError msg) :=
  c8_absence_malformed_boundaries_error (fun e => e) acceptAll _ _ 5 rfl
    (by decide) (by decide) (Or.inl rfl)

/-- Claim C9: with no left boundary proof the left check yields `Invalid`
exactly when the target differs from the root's minimum namespace; with no
right boundary proof the right check yields `Invalid` exactly when the
target differs from the root's maximum namespace; and a present right
boundary proof whose element namespace is not strictly above the target or
whose index is not `first_index + proofs.len()` (wrapping `u64` addition)
makes the right check yield `Invalid`. -/
theorem c9_boundary_absence_and_index_rules {E T N : Type} [LinearOrder N]
    (getNs : E → N)
    (innerVerify : NamespacedHash T N → Nat → MerkleProof E →
      Except MerkleTreeError VerificationResult)
    (self : NaiveNamespaceProof E) (root : NamespacedHash T N) (ns : N) :
    (self.left_boundary_proof = none →
      (verify_left_namespace_boundary getNs innerVerify self root ns =
          Except.ok VerificationResult.invalid ↔
        ns ≠ root.min_namespace)) ∧
    (self.right_boundary_proof = none →
      (verify_right_namespace_boundary getNs innerVerify self root ns =
          Except.ok VerificationResult.invalid ↔
        ns ≠ root.max_namespace)) ∧
    (∀ rp relem, self.right_boundary_proof = some rp → rp.elem = some relem →
      (getNs relem ≤ ns ∨
        rp.index ≠ (self.first_index + self.proofs.length) % u64Size) →
      verify_right_namespace_boundary getNs innerVerify self root ns =
        Except.ok VerificationResult.invalid) := by
  refine ⟨?_, ?_, ?_⟩
  · intro h
    simp only [verify_left_namespace_boundary, h]
    by_cases he : root.min_namespace = ns
    · rw [if_neg (not_not_intro he)]
      constructor
      · intro hc
        exact absurd hc (by simp)
      · intro hc
        exact absurd he.symm hc
    · rw [if_pos he]
      exact iff_of_true rfl (Ne.symm he)
  · intro h
    simp only [verify_right_namespace_boundary, h]
    by_cases he : root.max_namespace = ns
    · rw [if_neg (not_not_intro he)]
      constructor
      · intro hc
        exact absurd hc (by simp)
      · intro hc
        exact absurd he.symm hc
    · rw [if_pos he]
      exact iff_of_true rfl (Ne.symm he)
  · intro rp relem hr hre hbad
    simp only [verify_right_namespace_boundary, hr, hre]
    rw [if_pos hbad]

/-- Witness for C9: with no boundary proofs and target `7` against span
`[5, 5]` both checks yield `Invalid`, and a present right boundary proof at
a wrong index yields `Invalid`. -/
theorem c9_witness :
    verify_left_namespace_boundary (fun e => e) acceptAll
      (⟨NamespaceProofType.Presence, [], none, none, 0⟩ :
        NaiveNamespaceProof Nat)
      (⟨(), 5, 5⟩ : NamespacedHash Unit Nat) 7 =
      Except.ok VerificationResult.invalid ∧
    verify_right_namespace_boundary (fun e => e) acceptAll
      (⟨NamespaceProofType.Presence, [], none, none, 0⟩ :
        NaiveNamespaceProof Nat)
      (⟨(), 5, 5⟩ : NamespacedHash Unit Nat) 7 =
      Except.ok VerificationResult.invalid ∧
    verify_right_namespace_boundary (fun e => e) acceptAll
      (⟨NamespaceProofType.Presence, [], none, some ⟨9, some 8⟩, 0⟩ :
        NaiveNamespaceProof Nat)
      (⟨(), 5, 5⟩ : NamespacedHash Unit Nat) 7 =
      Except.ok VerificationResult.invalid :=
  ⟨((c9_boundary_absence_and_index_rules (fun e => e) acceptAll
      (⟨NamespaceProofType.Presence, [], none, none, 0⟩ :
        NaiveNamespaceProof Nat)
      (⟨(), 5, 5⟩ : NamespacedHash Unit Nat) 7).1 rfl).2 (by decide),
   ((c9_boundary_absence_and_index_rules (fun e => e) acceptAll
      (⟨NamespaceProofType.Presence, [], none, none, 0⟩ :
        NaiveNamespaceProof Nat)
      (⟨(), 5, 5⟩ : NamespacedHash Unit Nat) 7).2.1 rfl).2 (by decide),
   (c9_boundary_absence_and_index_rules (fun e => e) acceptAll
      (⟨NamespaceProofType.Presence, [], none, some ⟨9, some 8⟩, 0⟩ :
        NaiveNamespaceProof Nat)
      (⟨(), 5, 5⟩ : NamespacedHash Unit Nat) 7).2.2 ⟨9, some 8⟩ 8 rfl rfl
      (Or.inr (by decide))⟩

/-- Claim C10: for every absence proof `get_namespace_leaves` returns the
empty sequence without failing, whatever `proofs` holds, because the
truncation to zero elements precedes element extraction in the lazy
pipeline. -/
theorem c10_absence_leaves_empty {E : Type} (self : NaiveNamespaceProof E)
    (h : self.proof_type = NamespaceProofType.Absence) :
    get_namespace_leaves self = some [] := by
  simp only [get_namespace_leaves, h, List.take_zero]
  rfl

/-- Witness for C10: an absence proof carrying an element-less entry in
`proofs` still yields the empty sequence with no failure. -/
theorem c10_witness :
    get_namespace_leaves
      (⟨NamespaceProofType.Absence, [⟨0, none⟩], none, none, 0⟩ :
        NaiveNamespaceProof Nat) = some [] :=
  c10_absence_leaves_empty _ rfl
